import Mathlib

/-!
Shallow embedding of the martingale strategy engine of this repository
(src/DAC1.8_test.py and src/project/account_executor.py), with proofs of the
specification claims about it.  Floating-point values are modelled as exact
rationals; Python `int` truncation and `round` (banker rounding) are modelled
explicitly.
-/

/-- Python `int(x)` truncation toward zero on a rational. -/
def pyInt (x : ℚ) : ℤ :=
  if 0 ≤ x then ⌊x⌋ else ⌈x⌉

/-- Python `int(x * factor) / factor`: truncation of `x` to the precision given
by `factor` (in the source, `factor = 10 ** decimal_places`). -/
def truncToFactor (x : ℚ) (factor : ℕ) : ℚ :=
  (pyInt (x * factor) : ℚ) / (factor : ℚ)

/-- Python `round(x)` with no digits: round half to even, returning an integer. -/
def pyRoundInt (x : ℚ) : ℤ :=
  let f := ⌊x⌋
  let d := x - f
  if d < 1/2 then f
  else if 1/2 < d then f + 1
  else if f % 2 = 0 then f else f + 1

/-- Python `round(x, ndigits)`: round half to even at `ndigits` decimal places. -/
def pyRound (x : ℚ) (ndigits : ℕ) : ℚ :=
  (pyRoundInt (x * 10 ^ ndigits) : ℚ) / (10 ^ ndigits : ℚ)

namespace AccountExecutor

/-! Embedding of src/project/account_executor.py. -/

/-- ExecutionMode enum of account_executor.py. -/
inductive ExecutionMode
  | NORMAL
  | POSITION_ONLY
  | EMERGENCY_EXIT
  | SUSPENDED
  deriving DecidableEq

/-- The fields of the exchange position dict used by the recovery service:
`volume`, and whether the source field equals exchange_query. -/
structure ExchangePosition where
  volume : ℚ
  sourceIsExchangeQuery : Bool
  deriving DecidableEq

/-- The field of the order-history analysis dict used by the recovery service. -/
structure OrderAnalysis where
  totalVolume : ℚ
  deriving DecidableEq

/-- Result dict of `MartinStateRecovery._validate_recovery_data`. -/
structure RecoveryValidation where
  hasPosition : Bool
  hasOrders : Bool
  hasOrderHistory : Bool
  positionOrderConsistent : Bool
  directionConsistent : Bool
  overallValid : Bool
  deriving DecidableEq

/-- The position-existence epsilon `1e-8` of `_validate_recovery_data`. -/
def posEps : ℚ := 1 / 10 ^ 8

/-- `MartinStateRecovery._validate_recovery_data` (account_executor.py 959-991):
consistency checks between the exchange position, the summed filled-order
volume and the configured mode (1 = long, 2 = short). -/
def validateRecoveryData (mode : ℕ) (exchangePos : Option ExchangePosition)
    (orderAnalysis : OrderAnalysis) (activeOrders : List String) :
    RecoveryValidation :=
  let hasPosition : Bool :=
    match exchangePos with
    | some p => decide (posEps < |p.volume|)
    | none => false
  let hasOrders : Bool := decide (0 < activeOrders.length)
  let hasOrderHistory : Bool := decide (0 < orderAnalysis.totalVolume)
  let positionOrderConsistent : Bool :=
    match exchangePos with
    | some p =>
      if hasPosition && hasOrderHistory then
        let posVolume := |p.volume|
        let orderVolume := orderAnalysis.totalVolume
        !(decide ((1 : ℚ)/10 < |posVolume - orderVolume| / max posVolume orderVolume))
      else true
    | none => true
  let directionConsistent : Bool :=
    match exchangePos with
    | some p =>
      if hasPosition then decide ((if 0 < p.volume then 1 else 2) = mode) else true
    | none => true
  { hasPosition := hasPosition
    hasOrders := hasOrders
    hasOrderHistory := hasOrderHistory
    positionOrderConsistent := positionOrderConsistent
    directionConsistent := directionConsistent
    overallValid := (hasPosition || hasOrders) && directionConsistent }

/-- `MartinStateRecovery._determine_recovery_action` (account_executor.py
993-1034): picks the recovery action string and a confidence score. -/
def determineRecoveryAction (exchangePos : Option ExchangePosition)
    (validation : RecoveryValidation) : String × ℚ :=
  let hasPosition := validation.hasPosition
  let hasOrders := validation.hasOrders
  let confidence : ℚ := 1/2
  let confidence : ℚ := confidence +
    (match exchangePos with
     | some p => if p.sourceIsExchangeQuery then (3 : ℚ)/10 else 0
     | none => 0)
  let confidence : ℚ := confidence +
    (if validation.positionOrderConsistent then (1 : ℚ)/5 else 0)
  let confidence : ℚ := min 1 confidence
  if !validation.directionConsistent then ("INVALID_DIRECTION", 1/10)
  else if hasPosition && !hasOrders then ("RESET_SELL", confidence)
  else if hasPosition && hasOrders then ("CONTINUE", confidence)
  else if !hasPosition && hasOrders then ("CANCEL_ORDERS", confidence * (4/5))
  else if !hasPosition && !hasOrders then ("NEW_CYCLE", confidence)
  else ("UNKNOWN", 1/10)

/-- Effects that `AccountExecutor._apply_recovery_results` (account_executor.py
1328-1370) performs for one recovered strategy, in order. -/
inductive RecoveryEffect
  | setMode (m : ExecutionMode)
  | placeRecoverySellOrder
  | cancelRecoveryOrders
  | resetMartinState
  deriving DecidableEq

/-- The effect list of the `recovery_action` dispatch in
`AccountExecutor._apply_recovery_results`: any string other than the four
recognised actions falls through every branch and performs nothing. -/
def applyRecoveryAction (action : String) : List RecoveryEffect :=
  if action = "RESET_SELL" then
    [RecoveryEffect.setMode ExecutionMode.NORMAL, RecoveryEffect.placeRecoverySellOrder]
  else if action = "CONTINUE" then
    [RecoveryEffect.setMode ExecutionMode.NORMAL]
  else if action = "CANCEL_ORDERS" then
    [RecoveryEffect.setMode ExecutionMode.POSITION_ONLY, RecoveryEffect.cancelRecoveryOrders]
  else if action = "NEW_CYCLE" then
    [RecoveryEffect.setMode ExecutionMode.NORMAL, RecoveryEffect.resetMartinState]
  else []

/-- Whether a recovery effect is a trading action (places or cancels orders or
resets strategy state), as opposed to only setting the execution mode. -/
def isTradingEffect : RecoveryEffect → Bool
  | RecoveryEffect.setMode _ => false
  | RecoveryEffect.placeRecoverySellOrder => true
  | RecoveryEffect.cancelRecoveryOrders => true
  | RecoveryEffect.resetMartinState => true

/-- Roles a MARTIN order can play in the ladder (encoded in its reference). -/
inductive OrderRole
  | ADD
  | PROFIT
  deriving DecidableEq

/-- A live MARTIN order for the symbol and mode as seen by the recovery scan:
its id, and the role its reference encodes. -/
structure ActiveOrder where
  vtOrderid : String
  role : OrderRole
  deriving DecidableEq

/-- `MartinStateRecovery._get_active_martin_orders` (account_executor.py
935-956) collects the ids of ALL live MARTIN orders matching the symbol and
mode suffix — it never inspects the role, so ADD orders count exactly like
the protective PROFIT order. -/
def activeMartinOrderIds (orders : List ActiveOrder) : List String :=
  orders.map (fun o => o.vtOrderid)

/-- Whether a live protective (PROFIT) order exists — the quantity claim C1
keys the action table on.  The source never computes this. -/
def hasLiveProtectiveOrder (orders : List ActiveOrder) : Bool :=
  orders.any (fun o => decide (o.role = OrderRole.PROFIT))

/-- The action table exactly as claim C1 words it: keyed on the pair
(has_position, has_live_protective_order), the second coordinate being
liveness of the protective PROFIT order specifically. -/
def claimedRecoveryAction (hasPosition hasLiveProtective : Bool) : String :=
  match hasPosition, hasLiveProtective with
  | true, true => "CONTINUE"
  | true, false => "RESET_SELL"
  | false, true => "CANCEL_ORDERS"
  | false, false => "NEW_CYCLE"

/-- The recovery-action table as the source implements it (the amended claim
C1): the second coordinate is `has_orders` — whether ANY live MARTIN order
exists for the symbol and mode, ADD orders included — not specifically the
protective PROFIT order; a direction mismatch overrides everything (the spec
calls this action INVALID, the source spells it INVALID_DIRECTION). -/
def amendedRecoveryAction (v : RecoveryValidation) : String :=
  if v.directionConsistent = false then "INVALID_DIRECTION"
  else
    match v.hasPosition, v.hasOrders with
    | true, true => "CONTINUE"
    | true, false => "RESET_SELL"
    | false, true => "CANCEL_ORDERS"
    | false, false => "NEW_CYCLE"

/-- Directions of trades/orders (howtrader `Direction`). -/
inductive Direction
  | LONG
  | SHORT
  deriving DecidableEq

/-- The fields of howtrader `TradeData` read by `MartinManager.on_trade_update`. -/
structure TradeData where
  vtSymbol : String
  direction : Direction
  price : ℚ
  volume : ℚ
  deriving DecidableEq

/-- The mutable strategy state `MartinState` of account_executor.py (the
`last_update` timestamp is not modelled). -/
structure MartinState where
  avgPrice : ℚ
  positionSize : ℚ
  addCount : ℕ
  totalMarginUsed : ℚ
  activeOrders : List String
  executionMode : ExecutionMode
  deriving DecidableEq

/-- `MartinManager._reset_martin_state` (account_executor.py 558-566). -/
def resetMartinState (_s : MartinState) : MartinState :=
  { avgPrice := 0
    positionSize := 0
    addCount := 0
    totalMarginUsed := 0
    activeOrders := []
    executionMode := ExecutionMode.NORMAL }

/-- `MartinManager.on_trade_update` (account_executor.py 300-324): a LONG fill
raises the position and re-weights the average price; a SHORT fill lowers the
position and resets the whole state once at most one `size_tick` remains. -/
def onTradeUpdate (symbol : String) (sizeTick : ℚ) (s : MartinState)
    (t : TradeData) : MartinState :=
  if t.vtSymbol ≠ symbol then s
  else
    match t.direction with
    | Direction.LONG =>
      if 0 < s.positionSize then
        let totalCost := s.avgPrice * s.positionSize + t.price * t.volume
        let positionSize := s.positionSize + t.volume
        { s with positionSize := positionSize, avgPrice := totalCost / positionSize }
      else
        { s with avgPrice := t.price, positionSize := t.volume }
    | Direction.SHORT =>
      let positionSize := s.positionSize - t.volume
      if positionSize ≤ sizeTick then resetMartinState { s with positionSize := positionSize }
      else { s with positionSize := positionSize }

/-- `MartinManager._round_to_size_tick` (account_executor.py 568-570):
`max(size_tick, round(volume / size_tick) * size_tick)` — round to the nearest
tick, then raise to at least one tick. -/
def roundToSizeTick (sizeTick volume : ℚ) : ℚ :=
  max sizeTick ((pyRoundInt (volume / sizeTick) : ℚ) * sizeTick)

/-- Persistence categories of `PersistenceManager.dirty_flags`. -/
inductive PersistCategory
  | executor
  | martin
  | orders
  deriving DecidableEq

/-- The persistence-control state of `PersistenceManager`: the dirty flags and
the `last_critical_save` instant (as a timestamp in whole seconds). -/
structure PersistenceState where
  dirtyExecutor : Bool
  dirtyMartin : Bool
  dirtyOrders : Bool
  lastCriticalSave : ℕ
  deriving DecidableEq

/-- `critical_save_interval = 60` seconds. -/
def criticalSaveInterval : ℕ := 60

/-- `(datetime.now() - self.last_critical_save).seconds`: the seconds component
of the elapsed timedelta (total elapsed seconds modulo one day). -/
def elapsedSeconds (now last : ℕ) : ℕ := (now - last) % 86400

/-- `self.dirty_flags[category] = True`. -/
def setDirty (c : PersistCategory) (s : PersistenceState) : PersistenceState :=
  match c with
  | PersistCategory.executor => { s with dirtyExecutor := true }
  | PersistCategory.martin => { s with dirtyMartin := true }
  | PersistCategory.orders => { s with dirtyOrders := true }

/-- `PersistenceManager._save_critical_data` (account_executor.py 1092-1105):
records the save instant and clears every dirty flag. -/
def saveCriticalData (now : ℕ) (_s : PersistenceState) : PersistenceState :=
  { dirtyExecutor := false
    dirtyMartin := false
    dirtyOrders := false
    lastCriticalSave := now }

/-- `PersistenceManager.mark_critical_change` (account_executor.py 1084-1090):
sets the dirty flag, and saves now only when at least
`critical_save_interval` seconds have elapsed since the last critical save.
The returned Bool reports whether a save was performed. -/
def markCriticalChange (now : ℕ) (c : PersistCategory) (s : PersistenceState) :
    PersistenceState × Bool :=
  let s1 := setDirty c s
  if criticalSaveInterval ≤ elapsedSeconds now s1.lastCriticalSave then
    (saveCriticalData now s1, true)
  else (s1, false)

end AccountExecutor

namespace DAC

/-! Embedding of src/DAC1.8_test.py: the `martingale_strategy` ladder function,
the self-heal `ensure_sell_order` path, and `get_order_with_lock`. -/

/-- The strategy parameter dict of DAC1.8_test.py.  The field `opp` embeds the
source key `opp_ratio` (the per-level price trigger step). -/
structure MartinParams where
  opp : ℚ
  profitTarget : ℚ
  lever : ℚ
  firstMargin : ℚ
  firstMarginAdd : ℚ
  addingNumber : ℕ
  amountMultiplie : ℚ
  priceMultiple : ℚ
  mode : ℕ
  deriving DecidableEq

/-- The effective signed trigger step: `martingale_strategy` keeps `opp_ratio`
for mode 1 (long) and negates it for mode 2 (short) before the level loop. -/
def oppEff (p : MartinParams) : ℚ :=
  if p.mode = 1 then p.opp else -p.opp

/-- `total_margin = first_margin + Σ_{i<adding_number} first_margin_add * amount_multiplie^i`. -/
def totalMargin (p : MartinParams) : ℚ :=
  p.firstMargin + (Finset.range p.addingNumber).sum
    (fun i => p.firstMarginAdd * p.amountMultiplie ^ i)

/-- The accumulator of the `martingale_strategy` level loop: `before_price`,
`average_cost` and `total_pos`. -/
structure LadderAcc where
  beforePrice : ℚ
  averageCost : ℚ
  totalPos : ℚ
  deriving DecidableEq

/-- The state before the loop: anchor price, average cost = anchor price, and
the truncated first-level position `int(first_margin*lever/(initial_price*ctVal)
* factor) / factor` where `factor = 10 ** decimal_places` (the lot precision
`dp` derived in the source from `str(minSz)`). -/
def ladderInitAcc (p : MartinParams) (initialPrice ctVal : ℚ) (dp : ℕ) : LadderAcc :=
  { beforePrice := initialPrice
    averageCost := initialPrice
    totalPos := truncToFactor (p.firstMargin * p.lever / (initialPrice * ctVal)) (10 ^ dp) }

/-- Size of level `i+1` given the accumulator after level `i` (loop variable
`i` is 0-based, level number `k = i+1`): the raw size
`older_margin*lever/(older_price*ctVal)` truncated to the lot precision for
levels up to 25, and `max(minSz, round(minSz, dp))` beyond. -/
def ladderStepSize (p : MartinParams) (ctVal minSz : ℚ) (dp : ℕ)
    (acc : LadderAcc) (i : ℕ) : ℚ :=
  let olderPrice := acc.beforePrice * (1 - oppEff p * p.priceMultiple ^ i)
  let olderMargin := p.firstMarginAdd * p.amountMultiplie ^ i
  let raw := olderMargin * p.lever / (olderPrice * ctVal)
  if i + 1 ≤ 25 then truncToFactor raw (10 ^ dp)
  else max minSz (pyRound minSz dp)

/-- One iteration of the `martingale_strategy` level loop. -/
def ladderStep (p : MartinParams) (ctVal minSz : ℚ) (dp : ℕ)
    (acc : LadderAcc) (i : ℕ) : LadderAcc :=
  let olderPrice := acc.beforePrice * (1 - oppEff p * p.priceMultiple ^ i)
  let olderPos := ladderStepSize p ctVal minSz dp acc i
  { beforePrice := olderPrice
    averageCost := (acc.averageCost * acc.totalPos + olderPos * olderPrice) /
      (acc.totalPos + olderPos)
    totalPos := acc.totalPos + olderPos }

/-- The accumulator after `k` levels of the loop. -/
def ladderAcc (p : MartinParams) (initialPrice ctVal minSz : ℚ) (dp : ℕ) :
    ℕ → LadderAcc
  | 0 => ladderInitAcc p initialPrice ctVal dp
  | k + 1 => ladderStep p ctVal minSz dp (ladderAcc p initialPrice ctVal minSz dp k) k

/-- `older_price` of level `k` (level 0 is the anchor/open order). -/
def ladderPrice (p : MartinParams) (initialPrice ctVal minSz : ℚ) (dp : ℕ) (k : ℕ) : ℚ :=
  (ladderAcc p initialPrice ctVal minSz dp k).beforePrice

/-- `average_cost` after level `k`. -/
def ladderAvg (p : MartinParams) (initialPrice ctVal minSz : ℚ) (dp : ℕ) (k : ℕ) : ℚ :=
  (ladderAcc p initialPrice ctVal minSz dp k).averageCost

/-- `total_pos` after level `k`. -/
def ladderTotal (p : MartinParams) (initialPrice ctVal minSz : ℚ) (dp : ℕ) (k : ℕ) : ℚ :=
  (ladderAcc p initialPrice ctVal minSz dp k).totalPos

/-- `older_pos` of level `k` (level 0 is the truncated first-level size). -/
def ladderSize (p : MartinParams) (initialPrice ctVal minSz : ℚ) (dp : ℕ) :
    ℕ → ℚ
  | 0 => (ladderInitAcc p initialPrice ctVal dp).totalPos
  | k + 1 => ladderStepSize p ctVal minSz dp (ladderAcc p initialPrice ctVal minSz dp k) k

/-- Per-level `profit_price`: `avg*(1+profit_target)` long, `avg*(1-profit_target)` short. -/
def profitPriceAt (p : MartinParams) (avg : ℚ) : ℚ :=
  if p.mode = 1 then avg * (1 + p.profitTarget) else avg * (1 - p.profitTarget)

/-- Per-level `burst_price` as computed inside the level loop (the pre-loop
record uses `initial_price` in the mode-2 guard; claims do not touch it). -/
def burstPriceAt (p : MartinParams) (ctVal avg tp : ℚ) : ℚ :=
  if p.mode = 1 then
    if tp * avg * ctVal ≤ totalMargin p then 0
    else avg * (1 - totalMargin p / (tp * avg * ctVal))
  else
    if tp * avg * ctVal ≤ totalMargin p then 1000000
    else (1 + totalMargin p / (tp * avg * ctVal)) * avg

end DAC

namespace DAC

/-- Order states reported by the exchange for the protective sell order. -/
inductive OrdState
  | live
  | partFilled
  | filled
  | canceled
  deriving DecidableEq

/-- The protective sell order as seen by the exchange: its state and size. -/
structure SellOrder where
  state : OrdState
  sz : ℚ
  deriving DecidableEq

/-- The part of exchange state that `ensure_sell_order` touches: the order
registered under the fixed client id `self.sellid` (none when the exchange
does not know the id). -/
structure ExchangeWorld where
  sellOrder : Option SellOrder
  deriving DecidableEq

/-- Outcomes the exchange can give to one `place_order` call in
`_place_limit_then_fallback_market`: accepted (`sCode == "0"`), duplicate
client id (`sCode == "51015"`), another non-zero code, or a raised exception. -/
inductive PlaceOutcome
  | ok
  | duplicate
  | rejected
  | exc
  deriving DecidableEq

/-- The exchange environment for one self-heal pass: the outcome of the first
limit placement, of the retry placement after a duplicate-id cancel, and the
profit factor returned by `_calc_profit_and_maybe_open_option` (that helper
reads live order counts from the exchange and is abstracted as an input). -/
structure ExchangeEnv where
  firstPlace : PlaceOutcome
  retryPlace : PlaceOutcome
  profitFactor : ℚ
  deriving DecidableEq

/-- Requests sent to the exchange by the self-heal path, in order. -/
inductive TradeAction
  | cancelSell
  | placeLimitSell (px sz : ℚ)
  | placeMarketSell (sz : ℚ)
  deriving DecidableEq

/-- Whether an action submits an order (limit or market), as opposed to a
cancel request. -/
def isSubmission : TradeAction → Bool
  | TradeAction.cancelSell => false
  | TradeAction.placeLimitSell _ _ => true
  | TradeAction.placeMarketSell _ => true

/-- Number of order submissions in an action list. -/
def submissionCount (acts : List TradeAction) : ℕ :=
  (acts.filter isSubmission).length

/-- `tradeAPI.cancel_order(instId, clOrdId=self.sellid)` on the exchange:
cancelling a live or partially filled order succeeds and marks it canceled;
cancelling a missing, filled or already-canceled order raises a business
error. -/
def cancelSellOrder (w : ExchangeWorld) : Except Unit ExchangeWorld :=
  match w.sellOrder with
  | some o =>
    if o.state = OrdState.live ∨ o.state = OrdState.partFilled then
      Except.ok { sellOrder := some { o with state := OrdState.canceled } }
    else Except.error ()
  | none => Except.error ()

/-- The `try: cancel_order ... except: pass` wrapper of `ensure_sell_order`
step 1: a failing cancel is swallowed and the world is left as it was. -/
def cancelSellSwallow (w : ExchangeWorld) : ExchangeWorld :=
  match cancelSellOrder w with
  | Except.ok w1 => w1
  | Except.error _ => w

/-- Whether `get_order_with_lock(instId, sellid)` reports the protective order
as `live` or `partially_filled`. -/
def sellOrderReportedLive (w : ExchangeWorld) : Bool :=
  match w.sellOrder with
  | some o =>
    match o.state with
    | OrdState.live => true
    | OrdState.partFilled => true
    | _ => false
  | none => false

/-- `_place_limit_then_fallback_market` (DAC1.8_test.py 567-604): place a
limit order under the fixed client id; on a duplicate-id rejection cancel the
conflicting id and retry once; on any other rejection or exception fall back
to a market order.  Returns the new exchange world and the request trace. -/
def placeLimitThenFallbackMarket (env : ExchangeEnv) (w : ExchangeWorld)
    (px amount : ℚ) : ExchangeWorld × List TradeAction :=
  match env.firstPlace with
  | PlaceOutcome.ok =>
    ({ sellOrder := some { state := OrdState.live, sz := amount } },
      [TradeAction.placeLimitSell px amount])
  | PlaceOutcome.duplicate =>
    let w1 := cancelSellSwallow w
    match env.retryPlace with
    | PlaceOutcome.ok =>
      ({ sellOrder := some { state := OrdState.live, sz := amount } },
        [TradeAction.placeLimitSell px amount, TradeAction.cancelSell,
          TradeAction.placeLimitSell px amount])
    | _ =>
      (w1, [TradeAction.placeLimitSell px amount, TradeAction.cancelSell,
        TradeAction.placeLimitSell px amount, TradeAction.placeMarketSell amount])
  | PlaceOutcome.rejected =>
    (w, [TradeAction.placeLimitSell px amount, TradeAction.placeMarketSell amount])
  | PlaceOutcome.exc =>
    (w, [TradeAction.placeLimitSell px amount, TradeAction.placeMarketSell amount])

/-- `sell_order` (DAC1.8_test.py 608-626): compute the limit price from the
average price and the profit factor (long: `avgPx*profit`; short:
`avgPx*(1-profit)`) and place with fallback. -/
def sellOrderCall (env : ExchangeEnv) (mode : ℕ) (w : ExchangeWorld)
    (avgPx amount : ℚ) : ExchangeWorld × List TradeAction :=
  let px := if mode = 1 then avgPx * env.profitFactor
            else avgPx * (1 - env.profitFactor)
  placeLimitThenFallbackMarket env w px amount

/-- The per-strategy constants read by `ensure_sell_order`. -/
structure StratConfig where
  mode : ℕ
  minSz : ℚ
  dMinSz : ℕ
  maxsz : ℚ
  deriving DecidableEq

/-- `ensure_sell_order` (DAC1.8_test.py 629-661): if the protective order is
still live or partially filled, do nothing; otherwise cancel any remnant
(idempotently: a cancel error is swallowed), and when the position exceeds
the minimum lot, submit a fresh protective order of size
`round(min(pos - minSz, maxsz), d_minSz)` unless that amount is below the
minimum lot. -/
def ensureSellOrder (env : ExchangeEnv) (cfg : StratConfig) (stopFlag : Bool)
    (pos avgPx : ℚ) (w : ExchangeWorld) : ExchangeWorld × List TradeAction :=
  if stopFlag then (w, [])
  else if sellOrderReportedLive w then (w, [])
  else
    let w1 := cancelSellSwallow w
    if pos ≤ cfg.minSz then (w1, [TradeAction.cancelSell])
    else
      let amount := pyRound (min (pos - cfg.minSz) cfg.maxsz) cfg.dMinSz
      if amount < cfg.minSz then (w1, [TradeAction.cancelSell])
      else
        let r := sellOrderCall env cfg.mode w1 avgPx amount
        (r.1, TradeAction.cancelSell :: r.2)

end DAC

namespace DAC

/-- The characters of the exception-text marker `"ConnectionTerminated"`. -/
def ctPattern : List Char := "ConnectionTerminated".toList

/-- Substring test `"ConnectionTerminated" in str(e)` on a character list. -/
def containsCT : List Char → Bool
  | [] => false
  | c :: rest => List.isPrefixOf ctPattern (c :: rest) || containsCT rest

/-- The sleep taken after a failed `get_order` call, in seconds:
`2 ** retry_count` for connection-terminated errors, a fixed 1 second for any
other error. -/
def exnDelay (msg : String) (retryCount : ℕ) : ℕ :=
  if containsCT msg.toList then 2 ^ retryCount else 1

/-- One response of the exchange to a `get_order` call: data returned, a
response with no data (the loop just runs again), or a raised exception. -/
inductive ApiAttempt
  | withData (o : SellOrder)
  | emptyData
  | raised (msg : String)
  deriving DecidableEq

/-- What `get_order_with_lock` ends with. -/
inductive GetOrderResult
  | gotData (o : SellOrder)
  | connError
  | noResult
  deriving DecidableEq

/-- The retry loop of `get_order_with_lock` (DAC1.8_test.py 834-863), driven
by the sequence of exchange responses.  Returns the result, whether the
process-wide shutdown event was set by this call, and the sleeps performed
after failures.  An empty response list models the shutdown event being set
externally, which ends the loop with `None`.  After a failure the loop sleeps
`exnDelay`, increments `retry_count`, and once `retry_count > 5` it sets the
shutdown event and raises a connection error. -/
def getOrderLoop : List ApiAttempt → ℕ → GetOrderResult × Bool × List ℕ
  | [], _ => (GetOrderResult.noResult, false, [])
  | a :: rest, retryCount =>
    match a with
    | ApiAttempt.withData o => (GetOrderResult.gotData o, false, [])
    | ApiAttempt.emptyData => getOrderLoop rest retryCount
    | ApiAttempt.raised msg =>
      let d := exnDelay msg retryCount
      let rc := retryCount + 1
      if 5 < rc then (GetOrderResult.connError, true, [d])
      else
        let r := getOrderLoop rest rc
        (r.1, r.2.1, d :: r.2.2)

/-- `get_order_with_lock` itself: returns `None` at once when the shutdown
event is already set, else runs the retry loop with `retry_count = 0`. -/
def getOrderWithLock (shutdownAtEntry : Bool) (attempts : List ApiAttempt) :
    GetOrderResult × Bool × List ℕ :=
  if shutdownAtEntry then (GetOrderResult.noResult, false, [])
  else getOrderLoop attempts 0

/-- The guard of the worker loop in `MartingaleStrategy.run` (DAC1.8_test.py
190-197): the body (`trade`, `process_commands`) runs only while neither the
per-strategy stop flag nor the process-wide shutdown event is set. -/
def workerLoopRuns (stopFlag shutdownEvent : Bool) : Bool :=
  !stopFlag && !shutdownEvent

end DAC

namespace RefactoredExecutor

/-! Embedding of the parts of src/project/account_executor_refactored.py
cited by the claims. -/

/-- `SimpleMartinManager._round_to_size_tick` (account_executor_refactored.py
466-468): `max(min_order_size, round(volume / min_order_size) *
min_order_size)` — round to the nearest minimum order size, raised to at
least one. -/
def roundToSizeTick (minOrderSize volume : ℚ) : ℚ :=
  max minOrderSize ((pyRoundInt (volume / minOrderSize) : ℚ) * minOrderSize)

/-- One level of the average-price projection in
`SimpleMartinManager.calculate_buy_orders_queue`
(account_executor_refactored.py 346-355): the raw size
`older_margin*lever/(older_price*contract_size)` is tick-rounded into
`volume`, and the update is
`avg_price = (avg_price*position_size + older_margin*lever) /
(position_size + volume)`, `position_size = position_size + volume` — the
numerator adds the level notional `older_margin*lever`, not
`older_price*volume`.  Returns the new (avg_price, position_size). -/
def queueAvgUpdate (lever contractSize minOrderSize : ℚ)
    (avgPrice positionSize olderPrice olderMargin : ℚ) : ℚ × ℚ :=
  let olderPos := olderMargin * lever / (olderPrice * contractSize)
  let volume := roundToSizeTick minOrderSize olderPos
  ((avgPrice * positionSize + olderMargin * lever) / (positionSize + volume),
   positionSize + volume)

end RefactoredExecutor

open AccountExecutor DAC

-- ===================== Theorems =====================

/-- Claim C1 counterexample: a recovery state with a long position of 5,
matching order history, consistent direction and exactly one live MARTIN
order that is an ADD order — so no live protective PROFIT order.  The pair of
the claim is (T,F) and its table requires RESET_SELL, but the source keys its
second coordinate on ANY live MARTIN order and returns CONTINUE. -/
theorem claimC1_counterexample :
    (validateRecoveryData 1 (some { volume := 5, sourceIsExchangeQuery := true })
        { totalVolume := 5 }
        (activeMartinOrderIds [{ vtOrderid := "o1", role := OrderRole.ADD }])).hasPosition =
      true ∧
    (validateRecoveryData 1 (some { volume := 5, sourceIsExchangeQuery := true })
        { totalVolume := 5 }
        (activeMartinOrderIds
          [{ vtOrderid := "o1", role := OrderRole.ADD }])).directionConsistent =
      true ∧
    hasLiveProtectiveOrder [{ vtOrderid := "o1", role := OrderRole.ADD }] = false ∧
    claimedRecoveryAction true
      (hasLiveProtectiveOrder [{ vtOrderid := "o1", role := OrderRole.ADD }]) =
      "RESET_SELL" ∧
    (determineRecoveryAction (some { volume := 5, sourceIsExchangeQuery := true })
        (validateRecoveryData 1 (some { volume := 5, sourceIsExchangeQuery := true })
          { totalVolume := 5 }
          (activeMartinOrderIds [{ vtOrderid := "o1", role := OrderRole.ADD }]))).1 =
      "CONTINUE" ∧
    ("CONTINUE" : String) ≠ "RESET_SELL" := by
  refine ⟨?_, ?_, rfl, rfl, ?_, by decide⟩ <;>
    norm_num [validateRecoveryData, determineRecoveryAction, posEps,
      activeMartinOrderIds, hasLiveProtectiveOrder]

/-- Claim C1 (amended): the recovery action is determined by the pair
(has_position, has_any_live_MARTIN_order) — the second coordinate counts
every live MARTIN order for the symbol and mode, ADD orders included, not
only the protective PROFIT order — exactly as (T,T) CONTINUE,
(T,F) RESET_SELL, (F,T) CANCEL_ORDERS, (F,F) NEW_CYCLE; a direction mismatch
between the exchange position and the configured mode overrides the pair and
yields the invalid action (spelled INVALID_DIRECTION in the source), for
which the recovery applier performs no trading action at all. -/
theorem claimC1_amended (mode : ℕ) (ep : Option ExchangePosition)
    (oa : OrderAnalysis) (orders : List ActiveOrder) :
    (determineRecoveryAction ep
        (validateRecoveryData mode ep oa (activeMartinOrderIds orders))).1 =
      amendedRecoveryAction
        (validateRecoveryData mode ep oa (activeMartinOrderIds orders)) ∧
    applyRecoveryAction "INVALID_DIRECTION" = [] := by
  constructor
  · generalize validateRecoveryData mode ep oa (activeMartinOrderIds orders) = v
    rcases v with ⟨hp, ho, hh, hc, hd, hv⟩
    cases hp <;> cases ho <;> cases hd <;>
      simp [determineRecoveryAction, amendedRecoveryAction]
  · decide

/-- Claim C4 counterexample: exchange position 5.0 against summed order volume
4.0 (20 percent gap) with exchange-verified data and no live orders makes the
consistency check fail, yet the recovery pass returns RESET_SELL with
confidence 0.8, which is not strictly below 0.5 as the claim requires. -/
theorem claimC4_counterexample :
    (validateRecoveryData 1 (some { volume := 5, sourceIsExchangeQuery := true })
        { totalVolume := 4 } []).positionOrderConsistent = false ∧
    determineRecoveryAction (some { volume := 5, sourceIsExchangeQuery := true })
        (validateRecoveryData 1 (some { volume := 5, sourceIsExchangeQuery := true })
          { totalVolume := 4 } []) = ("RESET_SELL", 4/5) ∧
    ¬ ((determineRecoveryAction (some { volume := 5, sourceIsExchangeQuery := true })
        (validateRecoveryData 1 (some { volume := 5, sourceIsExchangeQuery := true })
          { totalVolume := 4 } [])).2 < 1/2) := by
  refine ⟨?_, ?_, ?_⟩ <;>
    norm_num [validateRecoveryData, determineRecoveryAction, posEps, Prod.ext_iff,
      min_def]

/-- Claim C4 (amended): when the position and the summed order volume disagree
beyond the 10 percent tolerance, the consistency check fails and a recovery
action is still computed (CONTINUE or RESET_SELL while a position exists in
the configured direction), but the confidence score only loses the 0.2
consistency bonus: it is at most 0.8, not strictly below 0.5. -/
theorem claimC4_amended (mode : ℕ) (ep : Option ExchangePosition)
    (oa : OrderAnalysis) (ao : List String)
    (hpos : (validateRecoveryData mode ep oa ao).hasPosition = true)
    (hdir : (validateRecoveryData mode ep oa ao).directionConsistent = true)
    (hcons : (validateRecoveryData mode ep oa ao).positionOrderConsistent = false) :
    ((determineRecoveryAction ep (validateRecoveryData mode ep oa ao)).1 = "RESET_SELL" ∨
      (determineRecoveryAction ep (validateRecoveryData mode ep oa ao)).1 = "CONTINUE") ∧
    (determineRecoveryAction ep (validateRecoveryData mode ep oa ao)).2 ≤ 4/5 := by
  generalize hv : validateRecoveryData mode ep oa ao = v at hpos hdir hcons
  rcases v with ⟨hp, ho, hh, hc, hd, hov⟩
  simp only at hpos hdir hcons
  subst hpos hdir hcons
  cases ho <;> rcases ep with _ | p <;>
    simp [determineRecoveryAction] <;>
    [skip; cases p.sourceIsExchangeQuery; skip; cases p.sourceIsExchangeQuery] <;>
    norm_num [min_def]

/-- Witness for claim C4 (amended) at the concrete spec scenario. -/
theorem claimC4_amended_witness :
    ((determineRecoveryAction (some { volume := 5, sourceIsExchangeQuery := true })
        (validateRecoveryData 1 (some { volume := 5, sourceIsExchangeQuery := true })
          { totalVolume := 4 } [])).1 = "RESET_SELL" ∨
      (determineRecoveryAction (some { volume := 5, sourceIsExchangeQuery := true })
        (validateRecoveryData 1 (some { volume := 5, sourceIsExchangeQuery := true })
          { totalVolume := 4 } [])).1 = "CONTINUE") ∧
    (determineRecoveryAction (some { volume := 5, sourceIsExchangeQuery := true })
        (validateRecoveryData 1 (some { volume := 5, sourceIsExchangeQuery := true })
          { totalVolume := 4 } [])).2 ≤ 4/5 :=
  claimC4_amended 1 (some { volume := 5, sourceIsExchangeQuery := true })
    { totalVolume := 4 } []
    (by norm_num [validateRecoveryData, posEps])
    (by norm_num [validateRecoveryData, posEps])
    (by norm_num [validateRecoveryData, posEps])

/-- Claim C8 counterexample: a state-machine-critical change marked 30 seconds
after the last critical save does not write immediately — `mark_critical_change`
only sets the dirty flag, contradicting the claim that critical transitions
force a write regardless of the time elapsed. -/
theorem claimC8_counterexample :
    (markCriticalChange 1030 PersistCategory.martin
      { dirtyExecutor := false, dirtyMartin := false, dirtyOrders := false,
        lastCriticalSave := 1000 }).2 = false := by
  decide

/-- Claim C8 (amended): persistence writes on critical changes are
rate-limited to the minimum interval of 60 seconds; marking a critical change
saves immediately only when at least that interval has elapsed since the last
critical save (measured on the seconds component of the timedelta), and
otherwise only records a dirty flag and defers the write. -/
theorem claimC8_amended (now : ℕ) (c : PersistCategory) (s : PersistenceState) :
    (criticalSaveInterval ≤ elapsedSeconds now s.lastCriticalSave →
      (markCriticalChange now c s).2 = true ∧
      (markCriticalChange now c s).1 = saveCriticalData now (setDirty c s)) ∧
    (elapsedSeconds now s.lastCriticalSave < criticalSaveInterval →
      (markCriticalChange now c s).2 = false ∧
      (markCriticalChange now c s).1 = setDirty c s) := by
  have hs : (setDirty c s).lastCriticalSave = s.lastCriticalSave := by
    cases c <;> rfl
  constructor
  · intro h
    simp [markCriticalChange, hs, h]
  · intro h
    simp [markCriticalChange, hs, Nat.not_le.mpr h]

/-- Witness for claim C8 (amended): 70 seconds after the last critical save a
critical change does write immediately. -/
theorem claimC8_amended_witness :
    (markCriticalChange 1070 PersistCategory.martin
      { dirtyExecutor := false, dirtyMartin := false, dirtyOrders := false,
        lastCriticalSave := 1000 }).2 = true ∧
    (markCriticalChange 1070 PersistCategory.martin
      { dirtyExecutor := false, dirtyMartin := false, dirtyOrders := false,
        lastCriticalSave := 1000 }).1 =
      saveCriticalData 1070 (setDirty PersistCategory.martin
        { dirtyExecutor := false, dirtyMartin := false, dirtyOrders := false,
          lastCriticalSave := 1000 }) :=
  (claimC8_amended 1070 PersistCategory.martin
    { dirtyExecutor := false, dirtyMartin := false, dirtyOrders := false,
      lastCriticalSave := 1000 }).1 (by decide)

/-- Claim C10: a trade-fill update applied to a state with non-negative
position size yields a non-negative position size, and a closing (SHORT) fill
that brings the position to at most one lot tick resets the whole state to
empty in one step: average price 0, position 0, add count 0, margin used 0,
no active orders, execution mode NORMAL. -/
theorem claimC10_on_trade_update (symbol : String) (sizeTick : ℚ)
    (s : MartinState) (t : TradeData)
    (hpos : 0 ≤ s.positionSize) (hvol : 0 ≤ t.volume) (htick : 0 ≤ sizeTick) :
    0 ≤ (onTradeUpdate symbol sizeTick s t).positionSize ∧
    (t.vtSymbol = symbol → t.direction = Direction.SHORT →
      s.positionSize - t.volume ≤ sizeTick →
      onTradeUpdate symbol sizeTick s t =
        { avgPrice := 0, positionSize := 0, addCount := 0, totalMarginUsed := 0,
          activeOrders := [], executionMode := ExecutionMode.NORMAL }) := by
  constructor
  · unfold onTradeUpdate
    by_cases hsym : t.vtSymbol ≠ symbol
    · rw [if_pos hsym]
      exact hpos
    · rw [if_neg hsym]
      cases t.direction with
      | LONG =>
        by_cases hp : 0 < s.positionSize
        · simp only [hp, if_pos]
          linarith
        · simp only [hp, if_neg, not_false_eq_true]
          exact hvol
      | SHORT =>
        by_cases hr : s.positionSize - t.volume ≤ sizeTick
        · simp only [hr, if_pos]
          norm_num [resetMartinState]
        · simp only [hr, if_neg, not_false_eq_true]
          push_neg at hr
          linarith
  · intro hsym hdir hle
    unfold onTradeUpdate
    rw [if_neg (by simp [hsym])]
    rw [hdir]
    simp only [hle, if_pos]
    rfl

/-- Witness for claim C10: a SHORT fill of the whole position resets the state. -/
theorem claimC10_witness :
    0 ≤ (onTradeUpdate "BTCUSDT" (1/1000)
      { avgPrice := 10, positionSize := 5, addCount := 2, totalMarginUsed := 100,
        activeOrders := ["o1"], executionMode := ExecutionMode.POSITION_ONLY }
      { vtSymbol := "BTCUSDT", direction := Direction.SHORT, price := 11,
        volume := 5 }).positionSize ∧
    ("BTCUSDT" = "BTCUSDT" → Direction.SHORT = Direction.SHORT →
      (5 : ℚ) - 5 ≤ 1/1000 →
      onTradeUpdate "BTCUSDT" (1/1000)
        { avgPrice := 10, positionSize := 5, addCount := 2, totalMarginUsed := 100,
          activeOrders := ["o1"], executionMode := ExecutionMode.POSITION_ONLY }
        { vtSymbol := "BTCUSDT", direction := Direction.SHORT, price := 11,
          volume := 5 } =
        { avgPrice := 0, positionSize := 0, addCount := 0, totalMarginUsed := 0,
          activeOrders := [], executionMode := ExecutionMode.NORMAL }) :=
  claimC10_on_trade_update "BTCUSDT" (1/1000)
    { avgPrice := 10, positionSize := 5, addCount := 2, totalMarginUsed := 100,
      activeOrders := ["o1"], executionMode := ExecutionMode.POSITION_ONLY }
    { vtSymbol := "BTCUSDT", direction := Direction.SHORT, price := 11, volume := 5 }
    (by norm_num) (by norm_num) (by norm_num)

/-- For non-negative arguments, Python truncation agrees with the floor. -/
theorem pyInt_eq_floor (x : ℚ) (hx : 0 ≤ x) : pyInt x = ⌊x⌋ :=
  if_pos hx

/-- Truncating a non-negative value to a positive precision never rounds up. -/
theorem truncToFactor_le_self (x : ℚ) (factor : ℕ) (hx : 0 ≤ x) (hf : 0 < factor) :
    truncToFactor x factor ≤ x := by
  unfold truncToFactor
  have hfq : (0 : ℚ) < (factor : ℚ) := by exact_mod_cast hf
  rw [pyInt_eq_floor _ (by positivity), div_le_iff₀ hfq]
  exact Int.floor_le _

/-- Python rounding lands within one half of its argument. -/
theorem pyRoundInt_near (x : ℚ) : |(pyRoundInt x : ℚ) - x| ≤ 1/2 := by
  have h1 : (⌊x⌋ : ℚ) ≤ x := Int.floor_le x
  have h2 : x < ⌊x⌋ + 1 := Int.lt_floor_add_one x
  simp only [pyRoundInt]
  split_ifs with ha hb hc <;> push_cast <;> rw [abs_le] <;> constructor <;>
    linarith

/-- Claim C5 counterexample.  At the cited rounding helper
`MartinManager._round_to_size_tick`, size tick 1 and raw volume 2.6: flooring
to the lot increment would give 2, but the code rounds to the nearest
increment and returns 3 — so sizes are not floored there.  And in
`martingale_strategy`, first margin 5, leverage 1, price 10, contract value 1
and minimum lot 1 give raw size 0.5, floored to 0 and not raised to the
minimum lot — so sizes are not raised to one lot there. -/
theorem claimC5_counterexample :
    roundToSizeTick 1 (13/5) = 3 ∧
    max (1 : ℚ) ((⌊(13/5 : ℚ) / 1⌋ : ℚ) * 1) = 2 ∧
    (3 : ℚ) ≠ 2 ∧
    ladderSize
      { opp := 1/100, profitTarget := 1/100, lever := 1, firstMargin := 5,
        firstMarginAdd := 5, addingNumber := 3, amountMultiplie := 1,
        priceMultiple := 1, mode := 1 } 10 1 1 0 0 = 0 ∧
    (0 : ℚ) < 1 := by
  refine ⟨?_, ?_, by norm_num, ?_, by norm_num⟩
  · norm_num [roundToSizeTick, pyRoundInt]
  · norm_num
  · norm_num [ladderSize, ladderInitAcc, truncToFactor, pyInt]

/-- Claim C5 (amended): ladder sizes in `martingale_strategy` are truncated
downward to the lot precision — the stored size never exceeds the raw value
`margin*leverage/(price*contract_value)` — and the first-level scenario
margin 20, leverage 10, price 100, contract value 1 gives exactly 2.0 lots;
but no raise to a minimum lot happens there.  The separate helper
`MartinManager._round_to_size_tick` does raise its result to at least one lot
increment, yet it rounds to the nearest increment (within half an increment
of the raw volume) instead of flooring. -/
theorem claimC5_amended (x : ℚ) (dp : ℕ) (sizeTick volume : ℚ)
    (hx : 0 ≤ x) (hst : 0 < sizeTick) :
    truncToFactor x (10 ^ dp) ≤ x ∧
    ladderSize
      { opp := 1/100, profitTarget := 1/100, lever := 10, firstMargin := 20,
        firstMarginAdd := 20, addingNumber := 3, amountMultiplie := 1,
        priceMultiple := 1, mode := 1 } 100 1 1 0 0 = 2 ∧
    sizeTick ≤ roundToSizeTick sizeTick volume ∧
    |(pyRoundInt (volume / sizeTick) : ℚ) * sizeTick - volume| ≤ sizeTick / 2 := by
  refine ⟨truncToFactor_le_self x _ hx (by positivity), ?_, le_max_left _ _, ?_⟩
  · norm_num [ladderSize, ladderInitAcc, truncToFactor, pyInt]
  · have hnz : sizeTick ≠ 0 := ne_of_gt hst
    have hkey : (pyRoundInt (volume / sizeTick) : ℚ) * sizeTick - volume =
        ((pyRoundInt (volume / sizeTick) : ℚ) - volume / sizeTick) * sizeTick := by
      field_simp
    rw [hkey, abs_mul, abs_of_pos hst]
    have := pyRoundInt_near (volume / sizeTick)
    calc |(pyRoundInt (volume / sizeTick) : ℚ) - volume / sizeTick| * sizeTick
        ≤ (1/2) * sizeTick := mul_le_mul_of_nonneg_right this (le_of_lt hst)
      _ = sizeTick / 2 := by ring

/-- Witness for claim C5 (amended) at raw size 2.6 lots and tick 1. -/
theorem claimC5_amended_witness :
    truncToFactor (13/5) (10 ^ 0) ≤ (13/5 : ℚ) ∧
    ladderSize
      { opp := 1/100, profitTarget := 1/100, lever := 10, firstMargin := 20,
        firstMarginAdd := 20, addingNumber := 3, amountMultiplie := 1,
        priceMultiple := 1, mode := 1 } 100 1 1 0 0 = 2 ∧
    (1 : ℚ) ≤ roundToSizeTick 1 (13/5) ∧
    |(pyRoundInt ((13/5 : ℚ) / 1) : ℚ) * 1 - 13/5| ≤ (1 : ℚ) / 2 :=
  claimC5_amended (13/5) 0 1 (13/5) (by norm_num) (by norm_num)

/-- Claim C6 counterexample: with trigger ratio 0.1, step multiplier 2 and
anchor price 100 (long), the code computes level 1 at
`100*(1 - 0.1*2^0) = 90`, not at `100*(1 - 0.1*2^1) = 80` as the claimed
formula with exponent `i` requires. -/
theorem claimC6_counterexample :
    ladderPrice
      { opp := 1/10, profitTarget := 1/100, lever := 1, firstMargin := 1,
        firstMarginAdd := 1, addingNumber := 3, amountMultiplie := 1,
        priceMultiple := 2, mode := 1 } 100 1 1 0 1 = 90 ∧
    ¬ (ladderPrice
        { opp := 1/10, profitTarget := 1/100, lever := 1, firstMargin := 1,
          firstMarginAdd := 1, addingNumber := 3, amountMultiplie := 1,
          priceMultiple := 2, mode := 1 } 100 1 1 0 1 =
      ladderPrice
        { opp := 1/10, profitTarget := 1/100, lever := 1, firstMargin := 1,
          firstMarginAdd := 1, addingNumber := 3, amountMultiplie := 1,
          priceMultiple := 2, mode := 1 } 100 1 1 0 0 *
        (1 - (1/10) * (2 : ℚ) ^ 1)) := by
  constructor <;>
    norm_num [ladderPrice, ladderAcc, ladderStep, ladderInitAcc, oppEff]

/-- Claim C6 (amended): for every ladder level `i+1` within the configured
level count, the price satisfies
`price_{i+1} = price_i * (1 - trigger_ratio * step_multiplier^i)` for a long
strategy and `price_{i+1} = price_i * (1 + trigger_ratio * step_multiplier^i)`
for a short strategy — the multiplier exponent is the 0-based level index,
one less than the 1-based level number.  The computation is a pure function
of its inputs, hence deterministic with no randomness. -/
theorem claimC6_amended (p : MartinParams) (initialPrice ctVal minSz : ℚ)
    (dp : ℕ) (i : ℕ) (_hrange : i + 1 ≤ p.addingNumber) :
    (p.mode = 1 →
      ladderPrice p initialPrice ctVal minSz dp (i + 1) =
        ladderPrice p initialPrice ctVal minSz dp i *
          (1 - p.opp * p.priceMultiple ^ i)) ∧
    (p.mode = 2 →
      ladderPrice p initialPrice ctVal minSz dp (i + 1) =
        ladderPrice p initialPrice ctVal minSz dp i *
          (1 + p.opp * p.priceMultiple ^ i)) := by
  constructor <;> intro hm <;>
    simp [ladderPrice, ladderAcc, ladderStep, oppEff, hm]

/-- Witness for claim C6 (amended) at level 1 of the counterexample ladder:
the long-mode recurrence instantiated at the 0-based index 0. -/
theorem claimC6_amended_witness :
    ladderPrice
      { opp := 1/10, profitTarget := 1/100, lever := 1, firstMargin := 1,
        firstMarginAdd := 1, addingNumber := 3, amountMultiplie := 1,
        priceMultiple := 2, mode := 1 } 100 1 1 0 (0 + 1) =
      ladderPrice
        { opp := 1/10, profitTarget := 1/100, lever := 1, firstMargin := 1,
          firstMarginAdd := 1, addingNumber := 3, amountMultiplie := 1,
          priceMultiple := 2, mode := 1 } 100 1 1 0 0 *
        (1 - (1/10 : ℚ) * (2 : ℚ) ^ (0 : ℕ)) :=
  (claimC6_amended
    { opp := 1/10, profitTarget := 1/100, lever := 1, firstMargin := 1,
      firstMarginAdd := 1, addingNumber := 3, amountMultiplie := 1,
      priceMultiple := 2, mode := 1 } 100 1 1 0 0 (by decide)).1 rfl

/-- `total_pos` after level `k+1` is the previous total plus the level size. -/
theorem ladderTotal_succ (p : MartinParams) (initialPrice ctVal minSz : ℚ)
    (dp : ℕ) (k : ℕ) :
    ladderTotal p initialPrice ctVal minSz dp (k + 1) =
      ladderTotal p initialPrice ctVal minSz dp k +
        ladderSize p initialPrice ctVal minSz dp (k + 1) := by
  simp [ladderTotal, ladderAcc, ladderStep, ladderSize]

/-- The average-cost update performed by level `k+1` of the loop. -/
theorem ladderAvg_succ (p : MartinParams) (initialPrice ctVal minSz : ℚ)
    (dp : ℕ) (k : ℕ) :
    ladderAvg p initialPrice ctVal minSz dp (k + 1) =
      (ladderAvg p initialPrice ctVal minSz dp k *
          ladderTotal p initialPrice ctVal minSz dp k +
        ladderSize p initialPrice ctVal minSz dp (k + 1) *
          ladderPrice p initialPrice ctVal minSz dp (k + 1)) /
      (ladderTotal p initialPrice ctVal minSz dp k +
        ladderSize p initialPrice ctVal minSz dp (k + 1)) := by
  simp [ladderAvg, ladderAcc, ladderStep, ladderSize, ladderTotal,
    ladderPrice, ladderStepSize]

/-- `total_pos` is the sum of all level sizes so far. -/
theorem ladderTotal_eq_sum (p : MartinParams) (initialPrice ctVal minSz : ℚ)
    (dp : ℕ) (k : ℕ) :
    ladderTotal p initialPrice ctVal minSz dp k =
      ∑ j in Finset.range (k + 1), ladderSize p initialPrice ctVal minSz dp j := by
  induction k with
  | zero => simp [ladderTotal, ladderAcc, ladderSize]
  | succ n ih => rw [Finset.sum_range_succ, ← ih, ladderTotal_succ]

/-- Claim C7 (amended): in the strategy ladder `martingale_strategy`
(DAC1.8_test.py 785-786), after any number of ladder levels the maintained
average cost equals the volume-weighted mean `Σ(price_j*size_j)/Σ(size_j)`
over the open fill and every add fill so far — exactly, in exact rational
arithmetic — because each level updates it as
`avg = (avg*total_pos + older_pos*older_price)/(total_pos + older_pos)`.
The queue projection of account_executor_refactored.py instead adds the
level notional over a tick-rounded volume and does not satisfy this (see the
counterexample). -/
theorem claimC7_average_cost (p : MartinParams) (initialPrice ctVal minSz : ℚ)
    (dp : ℕ) (k : ℕ) (_hk : k ≤ p.addingNumber)
    (h : ∀ j, j ≤ k → ladderTotal p initialPrice ctVal minSz dp j ≠ 0) :
    ladderAvg p initialPrice ctVal minSz dp k =
      (∑ j in Finset.range (k + 1),
        ladderPrice p initialPrice ctVal minSz dp j *
          ladderSize p initialPrice ctVal minSz dp j) /
      (∑ j in Finset.range (k + 1), ladderSize p initialPrice ctVal minSz dp j) := by
  clear _hk
  induction k with
  | zero =>
    have hts : ladderTotal p initialPrice ctVal minSz dp 0 =
        ladderSize p initialPrice ctVal minSz dp 0 := rfl
    have h0 : ladderSize p initialPrice ctVal minSz dp 0 ≠ 0 := by
      rw [← hts]
      exact h 0 le_rfl
    have ha0 : ladderAvg p initialPrice ctVal minSz dp 0 = initialPrice := rfl
    have hp0 : ladderPrice p initialPrice ctVal minSz dp 0 = initialPrice := rfl
    rw [ha0]
    simp only [Nat.zero_add, Finset.sum_range_one, hp0]
    rw [mul_div_assoc, div_self h0, mul_one]
  | succ n ih =>
    have hn : ∀ j, j ≤ n → ladderTotal p initialPrice ctVal minSz dp j ≠ 0 :=
      fun j hj => h j (Nat.le_succ_of_le hj)
    have ihn := ih hn
    have hT := h n (Nat.le_succ n)
    rw [ladderAvg_succ, ihn]
    conv_rhs => rw [Finset.sum_range_succ
        (fun j => ladderPrice p initialPrice ctVal minSz dp j *
          ladderSize p initialPrice ctVal minSz dp j) (n + 1),
      Finset.sum_range_succ (fun j => ladderSize p initialPrice ctVal minSz dp j) (n + 1),
      ← ladderTotal_eq_sum p initialPrice ctVal minSz dp n]
    rw [← ladderTotal_eq_sum p initialPrice ctVal minSz dp n, div_mul_cancel₀ _ hT,
      mul_comm (ladderSize p initialPrice ctVal minSz dp (n + 1))
        (ladderPrice p initialPrice ctVal minSz dp (n + 1))]

/-- Witness for claim C7 after one add level: margins 20 at leverage 10,
anchor 100, trigger 0.01 give sizes 2 and 2 at prices 100 and 99, and the
maintained average cost is the weighted mean of those fills. -/
theorem claimC7_witness :
    ladderAvg
      { opp := 1/100, profitTarget := 1/100, lever := 10, firstMargin := 20,
        firstMarginAdd := 20, addingNumber := 3, amountMultiplie := 1,
        priceMultiple := 1, mode := 1 } 100 1 1 0 1 =
      (∑ j in Finset.range 2,
        ladderPrice
          { opp := 1/100, profitTarget := 1/100, lever := 10, firstMargin := 20,
            firstMarginAdd := 20, addingNumber := 3, amountMultiplie := 1,
            priceMultiple := 1, mode := 1 } 100 1 1 0 j *
          ladderSize
            { opp := 1/100, profitTarget := 1/100, lever := 10, firstMargin := 20,
              firstMarginAdd := 20, addingNumber := 3, amountMultiplie := 1,
              priceMultiple := 1, mode := 1 } 100 1 1 0 j) /
      (∑ j in Finset.range 2,
        ladderSize
          { opp := 1/100, profitTarget := 1/100, lever := 10, firstMargin := 20,
            firstMarginAdd := 20, addingNumber := 3, amountMultiplie := 1,
            priceMultiple := 1, mode := 1 } 100 1 1 0 j) :=
  claimC7_average_cost
    { opp := 1/100, profitTarget := 1/100, lever := 10, firstMargin := 20,
      firstMarginAdd := 20, addingNumber := 3, amountMultiplie := 1,
      priceMultiple := 1, mode := 1 } 100 1 1 0 1 (by decide)
    (by
      intro j hj
      interval_cases j <;>
        norm_num [ladderTotal, ladderAcc, ladderStep, ladderStepSize,
          ladderInitAcc, truncToFactor, pyInt, oppEff])

/-- Claim C7 counterexample: the claim also cites the queue projection of
`SimpleMartinManager.calculate_buy_orders_queue`
(account_executor_refactored.py 352-353), and there the update is NOT the
claimed single-fill formula.  A level with margin 20 at leverage 10 (notional
200) and price 90, on position 2 at average cost 100 with minimum order size
1: the raw size 200/90 is tick-rounded to volume 2, and the code updates the
average to (100*2 + 20*10)/(2+2) = 100, while
`avg = (avg*size_total + price_i*size_i)/(size_total + size_i)` gives
(100*2 + 90*2)/(2+2) = 95 — a deviation of 5, far beyond floating-point
tolerance. -/
theorem claimC7_counterexample :
    RefactoredExecutor.roundToSizeTick 1 (20 * 10 / (90 * 1)) = 2 ∧
    (RefactoredExecutor.queueAvgUpdate 10 1 1 100 2 90 20).1 = 100 ∧
    ((100 : ℚ) * 2 + 90 * 2) / (2 + 2) = 95 ∧
    (100 : ℚ) ≠ 95 := by
  refine ⟨?_, ?_, by norm_num, by norm_num⟩ <;>
    norm_num [RefactoredExecutor.queueAvgUpdate,
      RefactoredExecutor.roundToSizeTick, pyRoundInt]

/-- When the protective order is not reported live or partially filled, the
swallowed cancel of `ensure_sell_order` leaves the exchange world unchanged:
the cancel call raises (the order is missing, filled or already canceled) and
the exception is ignored. -/
theorem cancelSellSwallow_of_notLive (w : ExchangeWorld)
    (h : sellOrderReportedLive w = false) : cancelSellSwallow w = w := by
  cases w with
  | mk so =>
    cases so with
    | none => rfl
    | some o =>
      cases o with
      | mk st sz =>
        cases st <;>
          simp_all [sellOrderReportedLive, cancelSellSwallow, cancelSellOrder]

/-- Claim C2: when self-heal finds the protective order missing, filled or
canceled, it cancels the remnant first (the cancel is idempotent — its error
on an already-canceled order is swallowed) and, if the position exceeds the
minimum lot and the amount `round(min(pos - minSz, maxsz), d_minSz)` is at
least the minimum lot, submits a fresh protective order of exactly that
amount; if the position is at or below the minimum lot, or the amount is
below the minimum lot, nothing is submitted. -/
theorem claimC2_self_heal_resubmit (env : ExchangeEnv) (cfg : StratConfig)
    (pos avgPx : ℚ) (w : ExchangeWorld)
    (hlive : sellOrderReportedLive w = false)
    (hok : env.firstPlace = PlaceOutcome.ok) :
    (cfg.minSz < pos →
      cfg.minSz ≤ pyRound (min (pos - cfg.minSz) cfg.maxsz) cfg.dMinSz →
      (ensureSellOrder env cfg false pos avgPx w).2 =
        [TradeAction.cancelSell,
          TradeAction.placeLimitSell
            (if cfg.mode = 1 then avgPx * env.profitFactor
             else avgPx * (1 - env.profitFactor))
            (pyRound (min (pos - cfg.minSz) cfg.maxsz) cfg.dMinSz)] ∧
      (ensureSellOrder env cfg false pos avgPx w).1 =
        { sellOrder := some
            { state := OrdState.live,
              sz := pyRound (min (pos - cfg.minSz) cfg.maxsz) cfg.dMinSz } }) ∧
    (pos ≤ cfg.minSz →
      submissionCount (ensureSellOrder env cfg false pos avgPx w).2 = 0) ∧
    (pyRound (min (pos - cfg.minSz) cfg.maxsz) cfg.dMinSz < cfg.minSz →
      submissionCount (ensureSellOrder env cfg false pos avgPx w).2 = 0) := by
  refine ⟨?_, ?_, ?_⟩
  · intro h1 h2
    constructor <;>
      simp [ensureSellOrder, hlive, not_le.mpr h1, not_lt.mpr h2,
        sellOrderCall, placeLimitThenFallbackMarket, hok]
  · intro hp
    simp [ensureSellOrder, hlive, hp, submissionCount, isSubmission]
  · intro ha
    by_cases hp : pos ≤ cfg.minSz
    · simp [ensureSellOrder, hlive, hp, submissionCount, isSubmission]
    · simp [ensureSellOrder, hlive, hp, ha, submissionCount, isSubmission]

/-- Witness for claim C2: a canceled remnant with position 10, minimum lot 1
and cap 100 is re-protected by one cancel plus one limit submission of
`round(min(10-1, 100), 0) = 9` lots. -/
theorem claimC2_witness :
    (ensureSellOrder
        { firstPlace := PlaceOutcome.ok, retryPlace := PlaceOutcome.ok,
          profitFactor := 101/100 }
        { mode := 1, minSz := 1, dMinSz := 0, maxsz := 100 } false 10 50
        { sellOrder := some { state := OrdState.canceled, sz := 2 } }).2 =
      [TradeAction.cancelSell,
        TradeAction.placeLimitSell (50 * (101/100)) (pyRound (min (10 - 1) 100) 0)] ∧
    (ensureSellOrder
        { firstPlace := PlaceOutcome.ok, retryPlace := PlaceOutcome.ok,
          profitFactor := 101/100 }
        { mode := 1, minSz := 1, dMinSz := 0, maxsz := 100 } false 10 50
        { sellOrder := some { state := OrdState.canceled, sz := 2 } }).1 =
      { sellOrder := some
          { state := OrdState.live,
            sz := pyRound (min (10 - 1) 100) 0 } } :=
  (claimC2_self_heal_resubmit
    { firstPlace := PlaceOutcome.ok, retryPlace := PlaceOutcome.ok,
      profitFactor := 101/100 }
    { mode := 1, minSz := 1, dMinSz := 0, maxsz := 100 } 10 50
    { sellOrder := some { state := OrdState.canceled, sz := 2 } } rfl rfl).1
    (by norm_num) (by norm_num [pyRound, pyRoundInt])

/-- Claim C3: self-heal is idempotent.  If the protective order is reported
live or partially filled, `ensure_sell_order` changes nothing and submits
nothing; consequently two consecutive invocations with no intervening fill
(limit placements accepted by the exchange) submit at most one order in
total. -/
theorem claimC3_self_heal_idempotent (env : ExchangeEnv) (cfg : StratConfig)
    (pos avgPx : ℚ) (w : ExchangeWorld)
    (hok : env.firstPlace = PlaceOutcome.ok) :
    (sellOrderReportedLive w = true →
      ensureSellOrder env cfg false pos avgPx w = (w, [])) ∧
    submissionCount (ensureSellOrder env cfg false pos avgPx w).2 +
      submissionCount (ensureSellOrder env cfg false pos avgPx
        (ensureSellOrder env cfg false pos avgPx w).1).2 ≤ 1 := by
  constructor
  · intro h
    simp [ensureSellOrder, h]
  · by_cases hl : sellOrderReportedLive w = true
    · simp [ensureSellOrder, hl, submissionCount]
    · replace hl : sellOrderReportedLive w = false := by
        simpa using hl
      have hcs := cancelSellSwallow_of_notLive w hl
      by_cases hp : pos ≤ cfg.minSz
      · have e1 : ensureSellOrder env cfg false pos avgPx w =
            (w, [TradeAction.cancelSell]) := by
          simp [ensureSellOrder, hl, hp, hcs]
        rw [e1]
        simp [ensureSellOrder, hl, hp, hcs, submissionCount, isSubmission]
      · by_cases ha : pyRound (min (pos - cfg.minSz) cfg.maxsz) cfg.dMinSz < cfg.minSz
        · have e1 : ensureSellOrder env cfg false pos avgPx w =
              (w, [TradeAction.cancelSell]) := by
            simp [ensureSellOrder, hl, hp, ha, hcs]
          rw [e1]
          simp [ensureSellOrder, hl, hp, ha, hcs, submissionCount, isSubmission]
        · have e1 : ensureSellOrder env cfg false pos avgPx w =
              ({ sellOrder := some
                  { state := OrdState.live,
                    sz := pyRound (min (pos - cfg.minSz) cfg.maxsz) cfg.dMinSz } },
                [TradeAction.cancelSell,
                  TradeAction.placeLimitSell
                    (if cfg.mode = 1 then avgPx * env.profitFactor
                     else avgPx * (1 - env.profitFactor))
                    (pyRound (min (pos - cfg.minSz) cfg.maxsz) cfg.dMinSz)]) := by
            simp [ensureSellOrder, hl, hp, ha, hcs, sellOrderCall,
              placeLimitThenFallbackMarket, hok]
          rw [e1]
          simp [ensureSellOrder, sellOrderReportedLive, submissionCount, isSubmission]

/-- Witness for claim C3: with a live protective order nothing happens, and
two consecutive self-heal passes submit at most one order. -/
theorem claimC3_witness :
    (sellOrderReportedLive
        { sellOrder := some { state := OrdState.live, sz := 2 } } = true →
      ensureSellOrder
        { firstPlace := PlaceOutcome.ok, retryPlace := PlaceOutcome.ok,
          profitFactor := 101/100 }
        { mode := 1, minSz := 1, dMinSz := 0, maxsz := 100 } false 10 50
        { sellOrder := some { state := OrdState.live, sz := 2 } } =
        ({ sellOrder := some { state := OrdState.live, sz := 2 } }, [])) ∧
    submissionCount (ensureSellOrder
        { firstPlace := PlaceOutcome.ok, retryPlace := PlaceOutcome.ok,
          profitFactor := 101/100 }
        { mode := 1, minSz := 1, dMinSz := 0, maxsz := 100 } false 10 50
        { sellOrder := some { state := OrdState.live, sz := 2 } }).2 +
      submissionCount (ensureSellOrder
        { firstPlace := PlaceOutcome.ok, retryPlace := PlaceOutcome.ok,
          profitFactor := 101/100 }
        { mode := 1, minSz := 1, dMinSz := 0, maxsz := 100 } false 10 50
        (ensureSellOrder
          { firstPlace := PlaceOutcome.ok, retryPlace := PlaceOutcome.ok,
            profitFactor := 101/100 }
          { mode := 1, minSz := 1, dMinSz := 0, maxsz := 100 } false 10 50
          { sellOrder := some { state := OrdState.live, sz := 2 } }).1).2 ≤ 1 :=
  claimC3_self_heal_idempotent
    { firstPlace := PlaceOutcome.ok, retryPlace := PlaceOutcome.ok,
      profitFactor := 101/100 }
    { mode := 1, minSz := 1, dMinSz := 0, maxsz := 100 } 10 50
    { sellOrder := some { state := OrdState.live, sz := 2 } } rfl

/-- Claim C9 counterexample: six consecutive generic (non connection
terminated) API errors are each retried after a fixed 1-second sleep, not
with exponential backoff — the sleep trace is [1,1,1,1,1,1], not
[2^0,...,2^5]. -/
theorem claimC9_counterexample :
    (getOrderWithLock false (List.replicate 6 (ApiAttempt.raised "HTTPError"))).2.2 =
      [1, 1, 1, 1, 1, 1] ∧
    (getOrderWithLock false (List.replicate 6 (ApiAttempt.raised "HTTPError"))).2.2 ≠
      [2 ^ 0, 2 ^ 1, 2 ^ 2, 2 ^ 3, 2 ^ 4, 2 ^ 5] := by
  constructor <;> decide

/-- A query that fails at most five times and then succeeds returns the data
without touching the shutdown event. -/
theorem getOrderLoop_success_after_failures (pre : List ApiAttempt) :
    ∀ (rc : ℕ) (o : SellOrder) (rest : List ApiAttempt),
      (∀ a ∈ pre, ∃ m, a = ApiAttempt.raised m) → pre.length + rc ≤ 5 →
      ∃ ds, getOrderLoop (pre ++ ApiAttempt.withData o :: rest) rc =
        (GetOrderResult.gotData o, false, ds) := by
  induction pre with
  | nil =>
    intro rc o rest _ _
    exact ⟨[], rfl⟩
  | cons a pre ih =>
    intro rc o rest hall hlen
    obtain ⟨m, rfl⟩ := hall a (List.mem_cons_self a pre)
    have hall2 : ∀ x ∈ pre, ∃ mm, x = ApiAttempt.raised mm :=
      fun x hx => hall x (List.mem_cons_of_mem _ hx)
    have hlen2 : pre.length + (rc + 1) ≤ 5 := by
      simp only [List.length_cons] at hlen
      omega
    obtain ⟨ds, hds⟩ := ih (rc + 1) o rest hall2 hlen2
    refine ⟨exnDelay m rc :: ds, ?_⟩
    simp only [List.cons_append, getOrderLoop]
    rw [if_neg (by omega)]
    simp [hds]

/-- Claim C9 (amended): order-status queries retry on error with a bounded
budget — the sixth consecutive failure sets the process-wide shutdown event
and the call ends in a connection error instead of returning data; the sleep
before retry `n` is `2^n` seconds for connection-terminated errors but a
fixed 1 second for other errors; a success within the budget returns the
data with the shutdown event untouched; and the worker loop guard refuses to
run once the shutdown event is set. -/
theorem claimC9_retry_killswitch (m1 m2 m3 m4 m5 m6 : String)
    (rest : List ApiAttempt) (pre : List ApiAttempt) (o : SellOrder)
    (stopFlag : Bool)
    (hpre : ∀ a ∈ pre, ∃ m, a = ApiAttempt.raised m) (hlen : pre.length ≤ 5) :
    (getOrderWithLock false
        ([ApiAttempt.raised m1, ApiAttempt.raised m2, ApiAttempt.raised m3,
          ApiAttempt.raised m4, ApiAttempt.raised m5, ApiAttempt.raised m6] ++
          rest)).1 = GetOrderResult.connError ∧
    (getOrderWithLock false
        ([ApiAttempt.raised m1, ApiAttempt.raised m2, ApiAttempt.raised m3,
          ApiAttempt.raised m4, ApiAttempt.raised m5, ApiAttempt.raised m6] ++
          rest)).2.1 = true ∧
    (getOrderWithLock false (List.replicate 6
        (ApiAttempt.raised "ConnectionTerminated"))).2.2 =
      [1, 2, 4, 8, 16, 32] ∧
    (∃ ds, getOrderWithLock false (pre ++ ApiAttempt.withData o :: rest) =
      (GetOrderResult.gotData o, false, ds)) ∧
    workerLoopRuns stopFlag true = false := by
  refine ⟨?_, ?_, ?_, ?_, ?_⟩
  · simp [getOrderWithLock, getOrderLoop]
  · simp [getOrderWithLock, getOrderLoop]
  · decide
  · have hsucc := getOrderLoop_success_after_failures pre 0 o rest hpre
      (by omega)
    simpa [getOrderWithLock] using hsucc
  · simp [workerLoopRuns]

/-- Witness for claim C9 (amended): one generic failure followed by a
successful response returns the data with the shutdown event untouched. -/
theorem claimC9_witness :
    ∃ ds, getOrderWithLock false
        ([ApiAttempt.raised "x"] ++
          ApiAttempt.withData { state := OrdState.live, sz := 2 } :: []) =
      (GetOrderResult.gotData { state := OrdState.live, sz := 2 }, false, ds) :=
  (claimC9_retry_killswitch "e1" "e2" "e3" "e4" "e5" "e6" []
    [ApiAttempt.raised "x"] { state := OrdState.live, sz := 2 } true
    (by
      intro a ha
      simp only [List.mem_singleton] at ha
      exact ⟨"x", ha⟩)
    (by simp)).2.2.2.1
